import Mathlib

/-!
Verification of the Braincast client (`src/App.tsx`).

The application is a three-screen state machine (`landing`, `loading`,
`report`) driven by two handlers:

* `startBraincast` (the orchestration `run()`): transitions to `loading`,
  clears held data, fetches a BTC price and a trade report concurrently
  alongside a 3500 ms delay timer, normalizes the two results (with
  fallback constants), and finally transitions to `report`.
* `newReport` (the `reset()` operation): transitions back to `landing`.

The embedding below models the component state, the two JSON-normalizing
branches (lines 50–78 of `App.tsx`), the try/catch fallback (lines 79–83),
and the sequence of state-setter calls as an explicit trace of states.
JavaScript `Math.round` is modelled on rationals as `⌊q + 1/2⌋`; JS
truthiness of an optional string field is emptiness/absence; the nullish
coalescing `a ?? b` on optional numeric fields is `Option.getD`/`<|>`.
-/

/-- The three-valued screen mode (`type Screen`, App.tsx line 11). -/
inductive Screen
  | landing
  | loading
  | report
deriving DecidableEq, Repr

/-- `interface BtcPrice` (App.tsx lines 13–16): normalized price snapshot.
`price` is an integer because the code stores `Math.round(...)`. -/
structure BtcPrice where
  price : ℤ
  change24h : ℚ
deriving DecidableEq, Repr

/-- `interface ReportData` (App.tsx lines 18–24).  The TypeScript interface
declares `direction` as the union `'LONG' | 'SHORT' | 'NONE'`, but the value
stored at line 63 is produced by an unchecked cast from an arbitrary response
string, so the runtime field is a plain string. -/
structure ReportData where
  direction : String
  entryPrice : ℚ
  targetPrice : ℚ
  stopPrice : ℚ
  leverage : ℚ
deriving DecidableEq, Repr

/-- A JSON scalar as far as the price normalizer can distinguish it:
the code only tests `typeof x === 'number'`. -/
inductive JVal
  | num (q : ℚ)
  | str (s : String)
deriving DecidableEq, Repr

/-- Body shape of a `/api/btc-price` response object.  An absent field is
`none` (JS `undefined`). -/
structure PriceResp where
  price : Option JVal
  change24h : Option JVal
deriving DecidableEq, Repr

/-- The nested `technicalData` object of a report response. -/
structure TechData where
  entryPrice : Option ℚ
deriving DecidableEq, Repr

/-- Body shape of a `/api/coinalyze-scalp` response object, covering every
field the normalizer at lines 61–68 reads.  An absent field is `none`. -/
structure ReportResp where
  signal : Option String
  direction : Option String
  entryPrice : Option ℚ
  technicalData : Option TechData
  targetPrice : Option ℚ
  exitPrice : Option ℚ
  stopPrice : Option ℚ
  stopLoss : Option ℚ
  leverage : Option ℚ
deriving DecidableEq, Repr

/-- JavaScript `Math.round`: round half toward positive infinity. -/
def jsRound (q : ℚ) : ℤ := ⌊q + 1/2⌋

/-- JS truthiness of an optional string field: present and non-empty. -/
def strTruthy : Option String → Bool
  | some s => s ≠ ""
  | none => false

/-- JS `a || d` for an optional string `a` against a string default. -/
def jsOrStr (a : Option String) (d : String) : String :=
  match a with
  | some s => if s = "" then d else s
  | none => d

/-- Fallback price snapshot `{ price: 113279, change24h: -2.76 }`
(App.tsx lines 57 and 81). -/
def fallbackBtcPrice : BtcPrice := { price := 113279, change24h := -2.76 }

/-- Fallback trade report (App.tsx lines 71–77 and 82). -/
def fallbackReport : ReportData :=
  { direction := "LONG", entryPrice := 119500, targetPrice := 121500,
    stopPrice := 119200, leverage := 30 }

/-- Price normalization, App.tsx lines 50–58: the guard is
`priceData && typeof priceData.price === 'number'`; on success the price is
`Math.round`ed and `change24h` defaults to `0` when not a number; otherwise
the fallback snapshot is produced.  `none` is the `null` produced by the
fetch `.catch` (the "unavailable" sentinel) or any falsy JSON body. -/
def processPrice (priceData : Option PriceResp) : BtcPrice :=
  match priceData with
  | some d =>
    match d.price with
    | some (JVal.num p) =>
      { price := jsRound p,
        change24h :=
          match d.change24h with
          | some (JVal.num c) => c
          | _ => 0 }
    | _ => fallbackBtcPrice
  | none => fallbackBtcPrice

/-- The guard of the report branch, App.tsx line 61:
`reportData && (reportData.signal || reportData.direction)`. -/
def reportPresent : Option ReportResp → Bool
  | some r => strTruthy r.signal || strTruthy r.direction
  | none => false

/-- Report normalization, App.tsx lines 61–78.  When the guard passes, each
field resolves through its coalescing chain
(`entryPrice ?? technicalData?.entryPrice ?? 119500`, etc.); otherwise the
fallback report is produced. -/
def processReport (reportData : Option ReportResp) : ReportData :=
  match reportData with
  | some r =>
    if strTruthy r.signal || strTruthy r.direction then
      { direction := jsOrStr r.signal (jsOrStr r.direction "LONG"),
        entryPrice := (r.entryPrice <|> (r.technicalData.bind TechData.entryPrice)).getD 119500,
        targetPrice := (r.targetPrice <|> r.exitPrice).getD 121500,
        stopPrice := (r.stopPrice <|> r.stopLoss).getD 119200,
        leverage := r.leverage.getD 30 }
    else fallbackReport
  | none => fallbackReport

/-- Component state: the three `useState` hooks of `App`
(App.tsx lines 27–29).  `none` is the JS `null`. -/
structure AppState where
  screen : Screen
  btcPrice : Option BtcPrice
  report : Option ReportData
deriving DecidableEq, Repr

/-- Where, if anywhere, an exception surfaces inside the `try` block of
`startBraincast` (App.tsx lines 46–78): at the `await` (before any setter in
the block runs), after the price setter, or after the report setter.  The
`catch` block then runs. -/
inductive ThrowPoint
  | atAwait
  | afterPriceSet
  | afterReportSet
deriving DecidableEq, Repr

/-- The execution of `startBraincast` (App.tsx lines 34–87) as the sequence
of component states observed after each state-setter call, in order:
`setScreen('loading')`, `setBtcPrice(null)`, `setReport(null)`, then the
`try` body (price setter, report setter) interrupted at `throwAt` if given,
then — on a throw — the two fallback setters of the `catch` block
(lines 81–82), and finally `setScreen('report')` (line 86). -/
def startBraincastTrace (s : AppState) (priceData : Option PriceResp)
    (reportData : Option ReportResp) (throwAt : Option ThrowPoint) :
    List AppState :=
  let s1 : AppState := { s with screen := Screen.loading }
  let s2 : AppState := { s1 with btcPrice := none }
  let s3 : AppState := { s2 with report := none }
  let s4 : AppState := { s3 with btcPrice := some (processPrice priceData) }
  let s5 : AppState := { s4 with report := some (processReport reportData) }
  match throwAt with
  | none =>
    [s1, s2, s3, s4, s5, { s5 with screen := Screen.report }]
  | some ThrowPoint.atAwait =>
    let c1 : AppState := { s3 with btcPrice := some fallbackBtcPrice }
    let c2 : AppState := { c1 with report := some fallbackReport }
    [s1, s2, s3, c1, c2, { c2 with screen := Screen.report }]
  | some ThrowPoint.afterPriceSet =>
    let c1 : AppState := { s4 with btcPrice := some fallbackBtcPrice }
    let c2 : AppState := { c1 with report := some fallbackReport }
    [s1, s2, s3, s4, c1, c2, { c2 with screen := Screen.report }]
  | some ThrowPoint.afterReportSet =>
    let c1 : AppState := { s5 with btcPrice := some fallbackBtcPrice }
    let c2 : AppState := { c1 with report := some fallbackReport }
    [s1, s2, s3, s4, s5, c1, c2, { c2 with screen := Screen.report }]

/-- The component state when `startBraincast` returns. -/
def startBraincastFinal (s : AppState) (priceData : Option PriceResp)
    (reportData : Option ReportResp) (throwAt : Option ThrowPoint) :
    AppState :=
  (startBraincastTrace s priceData reportData throwAt).getLastD s

/-- `newReport` (App.tsx lines 90–92): the single call `setScreen('landing')`. -/
def newReport (s : AppState) : AppState := { s with screen := Screen.landing }

/-- The minimum-delay floor of the loading screen:
`setTimeout(resolve, 3500)` (App.tsx line 44), in milliseconds. -/
def delayFloorMs : ℕ := 3500

/-- Join semantics of `await Promise.all([pricePromise, reportPromise,
delayPromise])` (App.tsx line 47): the `await` resumes when the slowest of
the three settles, so the total wait is the maximum of the three
durations (in milliseconds since invocation). -/
def runCompletionTime (priceMs reportMs timerMs : ℕ) : ℕ :=
  max priceMs (max reportMs timerMs)

/-! ### Spec-side definitions

The following definitions are written from the specification's words, not
from the source, so that the normalization claims can be settled by
comparing them with `processPrice` / `processReport` above. -/

/-- The numeric value of a JSON field, if it is a number. -/
def numericVal : Option JVal → Option ℚ
  | some (JVal.num q) => some q
  | _ => none

/-- Spec wording of the price normalization: "if the result is the
unavailable sentinel or lacks a numeric price field, substitutes fallback
PriceSnapshot \x7bprice: 113279, change24h: -2.76\x7d. Otherwise, price is
rounded to nearest integer; change24h defaults to 0 if not numeric." -/
def specPriceNormalize (priceData : Option PriceResp) : BtcPrice :=
  match priceData with
  | none => fallbackBtcPrice
  | some d =>
    match numericVal d.price with
    | none => fallbackBtcPrice
    | some p => { price := jsRound p, change24h := (numericVal d.change24h).getD 0 }

/-- Ordered field resolution, as the spec describes the fallback chains:
the first defined candidate value, else the fixed default. -/
def firstDefined : List (Option ℚ) → ℚ → ℚ
  | [], d => d
  | some v :: _, _ => v
  | none :: rest, d => firstDefined rest d

/-- Spec wording of the direction resolution: "direction is taken from
`signal` then `direction`, defaulting to LONG if both are falsy". -/
def specDirection (r : ReportResp) : String :=
  if strTruthy r.signal then r.signal.getD "LONG"
  else if strTruthy r.direction then r.direction.getD "LONG"
  else "LONG"

/-- C4's presence test exactly as the claim words it: the result "carries
either a `signal` or a `direction` field". -/
def carriesSignalOrDirection : Option ReportResp → Bool
  | some r => r.signal.isSome || r.direction.isSome
  | none => false

/-- The report normalization exactly as claim C4 states it: the result is
considered present when it carries a `signal` or `direction` field, and a
present result is normalized field by field (direction chain and ordered
fallback chains) rather than replaced by the full fallback report. -/
def specReportNormalizeC4 (reportData : Option ReportResp) : ReportData :=
  match reportData with
  | none => fallbackReport
  | some r =>
    if r.signal.isSome || r.direction.isSome then
      { direction := specDirection r,
        entryPrice := firstDefined [r.entryPrice, r.technicalData.bind TechData.entryPrice] 119500,
        targetPrice := firstDefined [r.targetPrice, r.exitPrice] 121500,
        stopPrice := firstDefined [r.stopPrice, r.stopLoss] 119200,
        leverage := firstDefined [r.leverage] 30 }
    else fallbackReport

/-- The report normalization with C4's presence test amended to what the
code checks: the result is considered present exactly when it carries a
truthy (non-empty) `signal` or `direction` field. -/
def specReportNormalizeTruthy (reportData : Option ReportResp) : ReportData :=
  match reportData with
  | none => fallbackReport
  | some r =>
    if strTruthy r.signal || strTruthy r.direction then
      { direction := specDirection r,
        entryPrice := firstDefined [r.entryPrice, r.technicalData.bind TechData.entryPrice] 119500,
        targetPrice := firstDefined [r.targetPrice, r.exitPrice] 121500,
        stopPrice := firstDefined [r.stopPrice, r.stopLoss] 119200,
        leverage := firstDefined [r.leverage] 30 }
    else fallbackReport

/-! ### Concrete inputs used by scenarios, witnesses and counterexamples -/

/-- Scenario 1 price response body `\x7bprice: 65000.7, change24h: 1.2\x7d`. -/
def scenario1Resp : PriceResp :=
  { price := some (JVal.num 65000.7), change24h := some (JVal.num 1.2) }

/-- Scenario 2 report response body
`\x7bsignal: "SHORT", entryPrice: 70000, stopLoss: 71000\x7d`. -/
def scenario2Resp : ReportResp :=
  { signal := some "SHORT", direction := none, entryPrice := some 70000,
    technicalData := none, targetPrice := none, exitPrice := none,
    stopPrice := none, stopLoss := some 71000, leverage := none }

/-- A report response that carries a `signal` field whose value is the
empty string (falsy): `\x7bsignal: "", entryPrice: 70000\x7d`. -/
def emptySignalResp : ReportResp :=
  { signal := some "", direction := none, entryPrice := some 70000,
    technicalData := none, targetPrice := none, exitPrice := none,
    stopPrice := none, stopLoss := none, leverage := none }

/-- A report response whose `signal` is a string outside the
`LONG`/`SHORT`/`NONE` enumeration. -/
def bananaResp : ReportResp :=
  { signal := some "BANANA", direction := none, entryPrice := none,
    technicalData := none, targetPrice := none, exitPrice := none,
    stopPrice := none, stopLoss := none, leverage := none }

/-- A fresh component state, as mounted (App.tsx lines 27–29). -/
def initialState : AppState :=
  { screen := Screen.landing, btcPrice := none, report := none }

/-- The component state at the end of a run in which both fetches failed. -/
def bothFailedFinal : AppState :=
  { screen := Screen.report, btcPrice := some fallbackBtcPrice,
    report := some fallbackReport }

/-! ### Helper lemmas -/

/-- The coalescing chain `a ?? b ?? d` of the source equals the spec's
ordered field resolution over the candidate list `[a, b]`. -/
theorem orElse_getD_eq_firstDefined (a b : Option ℚ) (d : ℚ) :
    (a <|> b).getD d = firstDefined [a, b] d := by
  cases a <;> cases b <;> rfl

/-- The chain `a ?? d` equals ordered field resolution over `[a]`. -/
theorem getD_eq_firstDefined (a : Option ℚ) (d : ℚ) :
    a.getD d = firstDefined [a] d := by
  cases a <;> rfl

/-- A coalesced pair viewed as a single candidate resolves like the
two-candidate list. -/
theorem firstDefined_orElse (a b : Option ℚ) (d : ℚ) :
    firstDefined [a <|> b] d = firstDefined [a, b] d := by
  cases a <;> cases b <;> rfl

/-- The source's `signal || direction || 'LONG'` expression equals the
spec's direction resolution. -/
theorem jsOrStr_eq_specDirection (r : ReportResp) :
    jsOrStr r.signal (jsOrStr r.direction "LONG") = specDirection r := by
  rcases hs : r.signal with _ | s <;> rcases hd : r.direction with _ | d <;>
    simp [jsOrStr, specDirection, strTruthy, hs, hd]

/-! ### Claims -/

/-- C1: in every execution of `startBraincast`, every observable state whose
screen is `report` holds a non-null price snapshot and a non-null trade
report (both of which are fully populated structures); no partial report
state is ever observable. -/
theorem report_screen_always_fully_populated (s : AppState)
    (priceData : Option PriceResp) (reportData : Option ReportResp)
    (throwAt : Option ThrowPoint) (st : AppState)
    (hmem : st ∈ startBraincastTrace s priceData reportData throwAt)
    (hscreen : st.screen = Screen.report) :
    st.btcPrice.isSome = true ∧ st.report.isSome = true := by
  rcases throwAt with _ | tp
  · simp only [startBraincastTrace, List.mem_cons, List.not_mem_nil, or_false] at hmem
    rcases hmem with rfl | rfl | rfl | rfl | rfl | rfl <;> simp_all
  · rcases tp with _ | _ | _ <;>
      simp only [startBraincastTrace, List.mem_cons, List.not_mem_nil, or_false] at hmem
    · rcases hmem with rfl | rfl | rfl | rfl | rfl | rfl <;> simp_all
    · rcases hmem with rfl | rfl | rfl | rfl | rfl | rfl | rfl <;> simp_all
    · rcases hmem with rfl | rfl | rfl | rfl | rfl | rfl | rfl | rfl <;> simp_all

/-- Witness for C1 at a concrete run: starting from the mounted state with
both fetches failed and no exception, the terminal state is in the trace,
shows `report`, and holds both snapshots. -/
theorem report_screen_always_fully_populated_witness :
    bothFailedFinal.btcPrice.isSome = true ∧ bothFailedFinal.report.isSome = true :=
  report_screen_always_fully_populated initialState none none none bothFailedFinal
    (by simp [startBraincastTrace, processPrice, processReport, initialState, bothFailedFinal])
    rfl

/-- C2: every execution of `startBraincast` ends with the screen set to
`report`: on every code path — success, a throw at any point, any fetch
results — the terminal state is observed in the trace and its screen is
`report`, so the machine never remains stuck in `loading`. -/
theorem run_always_reaches_report (s : AppState) (priceData : Option PriceResp)
    (reportData : Option ReportResp) (throwAt : Option ThrowPoint) :
    (startBraincastFinal s priceData reportData throwAt).screen = Screen.report ∧
    startBraincastFinal s priceData reportData throwAt
      ∈ startBraincastTrace s priceData reportData throwAt := by
  rcases throwAt with _ | (_ | _ | _) <;>
    exact ⟨rfl, by simp [startBraincastFinal, startBraincastTrace]⟩

/-- C3: the run cannot complete before the 3500 ms floor: the awaited join
finishes at the maximum of the two fetch durations and the timer duration,
and the timer resolves no sooner than 3500 ms, so the transition to `report`
happens no sooner than 3500 ms after invocation (and no sooner than either
fetch finishes). -/
theorem run_waits_for_delay_floor (priceMs reportMs timerMs : ℕ)
    (htimer : delayFloorMs ≤ timerMs) :
    delayFloorMs ≤ runCompletionTime priceMs reportMs timerMs ∧
    priceMs ≤ runCompletionTime priceMs reportMs timerMs ∧
    reportMs ≤ runCompletionTime priceMs reportMs timerMs ∧
    (runCompletionTime priceMs reportMs timerMs = priceMs ∨
     runCompletionTime priceMs reportMs timerMs = reportMs ∨
     runCompletionTime priceMs reportMs timerMs = timerMs) := by
  unfold runCompletionTime delayFloorMs at *
  omega

/-- Witness for C3: both fetches resolving instantly with the timer at
exactly 3500 ms still yields a completion time of at least 3500 ms. -/
theorem run_waits_for_delay_floor_witness :
    delayFloorMs ≤ runCompletionTime 0 0 3500 :=
  (run_waits_for_delay_floor 0 0 3500 (by decide)).1

/-- C4 counterexample: the response `{signal: "", entryPrice: 70000}`
carries a `signal` field, yet the code's guard treats it as absent (the
guard requires truthiness), and the produced report is the full fallback
rather than the field-by-field normalization the claim predicts. -/
theorem report_presence_claim_cex :
    carriesSignalOrDirection (some emptySignalResp) = true ∧
    reportPresent (some emptySignalResp) = false ∧
    processReport (some emptySignalResp) ≠ specReportNormalizeC4 (some emptySignalResp) := by
  refine ⟨rfl, rfl, fun h => ?_⟩
  have h' := congrArg ReportData.entryPrice h
  norm_num [processReport, specReportNormalizeC4, emptySignalResp, strTruthy,
    firstDefined, fallbackReport] at h'

/-- C4 (amended): the report result is considered present exactly when it
carries a truthy (non-empty) `signal` or `direction` field; a present
result is normalized with the direction chain (`signal`, then `direction`,
then LONG) and the per-field ordered fallback chains, and an absent one
with the full fallback report. -/
theorem report_normalization_truthy_presence (reportData : Option ReportResp) :
    processReport reportData = specReportNormalizeTruthy reportData := by
  rcases reportData with _ | r
  · rfl
  · cases h : strTruthy r.signal || strTruthy r.direction
    · simp [processReport, specReportNormalizeTruthy, h]
    · simp [processReport, specReportNormalizeTruthy, h,
        jsOrStr_eq_specDirection, orElse_getD_eq_firstDefined, getD_eq_firstDefined,
        firstDefined_orElse]

/-- C5: the price normalization is exactly as specified — the unavailable
sentinel or a non-numeric price yields the fallback snapshot, otherwise the
price is rounded and `change24h` defaults to 0 when not numeric — and on
Scenario 1's response `{price: 65000.7, change24h: 1.2}` it produces
`{price: 65001, change24h: 1.2}`. -/
theorem price_normalization_matches_spec :
    (∀ priceData : Option PriceResp, processPrice priceData = specPriceNormalize priceData) ∧
    processPrice (some scenario1Resp) = { price := 65001, change24h := 1.2 } := by
  constructor
  · intro priceData
    rcases priceData with _ | ⟨p, c⟩
    · rfl
    · rcases p with _ | v
      · rfl
      · rcases v with q | t
        · rcases c with _ | w
          · rfl
          · rcases w with q' | t' <;> rfl
        · rfl
  · simp only [processPrice, scenario1Resp]
    norm_num [jsRound, BtcPrice.mk.injEq]

/-- C6: on the report response `{signal: "SHORT", entryPrice: 70000,
stopLoss: 71000}` — no targetPrice/exitPrice, no leverage — the produced
report is `{direction: SHORT, entryPrice: 70000, targetPrice: 121500,
stopPrice: 71000, leverage: 30}`: `stopLoss` resolves `stopPrice`, and the
missing `targetPrice` and `leverage` take the fixed constants. -/
theorem scenario2_report_normalization :
    processReport (some scenario2Resp)
      = { direction := "SHORT", entryPrice := 70000, targetPrice := 121500,
          stopPrice := 71000, leverage := 30 } := by
  simp [processReport, scenario2Resp, strTruthy, jsOrStr]

/-- C7: whenever an exception surfaces anywhere inside the `try` block of
`startBraincast` — at the await, or after either normalization setter —
the `catch` block sets the price snapshot to `{113279, -2.76}` and the
report to `{LONG, 119500, 121500, 119200, 30}`, and the terminal screen is
still `report`, for every starting state and every pair of fetch results. -/
theorem caught_exception_yields_fallbacks_then_report (s : AppState)
    (priceData : Option PriceResp) (reportData : Option ReportResp)
    (tp : ThrowPoint) :
    startBraincastFinal s priceData reportData (some tp)
      = { screen := Screen.report,
          btcPrice := some { price := 113279, change24h := -2.76 },
          report := some { direction := "LONG", entryPrice := 119500,
                           targetPrice := 121500, stopPrice := 119200,
                           leverage := 30 } } := by
  cases tp <;> rfl

/-- C8 counterexample: invoking `newReport` from a report screen that holds
both snapshots yields the landing screen but retains both the price
snapshot and the trade report — they are not cleared, contradicting the
claim that neither is retained. -/
theorem reset_clears_data_cex :
    (newReport bothFailedFinal).screen = Screen.landing ∧
    (newReport bothFailedFinal).btcPrice ≠ none ∧
    (newReport bothFailedFinal).report ≠ none := by
  refine ⟨rfl, ?_, ?_⟩ <;> simp [newReport, bothFailedFinal]

/-- C8 (amended): from every prior state, `newReport` yields the `landing`
screen while the held price snapshot and trade report are retained
unchanged — they are cleared only at the start of the next run (the second
and third states of any subsequent `startBraincast` trace hold no data). -/
theorem reset_yields_landing_and_retains_data (s : AppState) :
    (newReport s).screen = Screen.landing ∧
    (newReport s).btcPrice = s.btcPrice ∧
    (newReport s).report = s.report := by
  exact ⟨rfl, rfl, rfl⟩

/-- C9: `newReport` sets the screen to `landing` and has no other effect —
the price snapshot and trade report fields are untouched — and it is
idempotent: applying it twice equals applying it once. -/
theorem reset_no_other_effects_idempotent (s : AppState) :
    (newReport s).screen = Screen.landing ∧
    (newReport s).btcPrice = s.btcPrice ∧
    (newReport s).report = s.report ∧
    newReport (newReport s) = newReport s := by
  exact ⟨rfl, rfl, rfl, rfl⟩

/-- C10: the produced direction is not validated against the
LONG/SHORT/NONE enumeration: whenever the response's `signal` field is a
truthy (non-empty) string — or, when `signal` is falsy, its `direction`
field is — the produced report's direction is exactly that string
verbatim. -/
theorem direction_not_validated (r : ReportResp) (v : String) (hv : v ≠ "")
    (h : r.signal = some v ∨ (strTruthy r.signal = false ∧ r.direction = some v)) :
    (processReport (some r)).direction = v := by
  rcases h with h | ⟨hf, hd⟩
  · simp [processReport, strTruthy, h, hv, jsOrStr]
  · have hguard : strTruthy r.direction = true := by simp [strTruthy, hd, hv]
    rcases hsig : r.signal with _ | t
    · simp [processReport, hsig, hguard, hd, jsOrStr, hv, strTruthy]
    · have ht : t = "" := by simpa [strTruthy, hsig] using hf
      subst ht
      simp [processReport, hsig, hguard, hd, jsOrStr, hv, strTruthy]

/-- Witness for C10: a response with `signal: "BANANA"` — a string that is
none of LONG, SHORT or NONE — produces a report whose direction is the
string BANANA verbatim. -/
theorem direction_not_validated_witness :
    ("BANANA" ≠ "LONG" ∧ "BANANA" ≠ "SHORT" ∧ "BANANA" ≠ "NONE") ∧
    (processReport (some bananaResp)).direction = "BANANA" :=
  ⟨by refine ⟨?_, ?_, ?_⟩ <;> decide,
   direction_not_validated bananaResp "BANANA" (by decide) (Or.inl rfl)⟩
